import Mathlib

/-!
# movie-app: the search orchestration of `src/App.jsx`

A shallow embedding of the two asynchronous operations of the `App` component,
`fetchMovies` and `loadTrendingMovies`, together with the pieces of JavaScript
they rely on (strings as UTF-16 code units, truthiness, `||`, `encodeURI`).

A run of an operation is modelled by the sequence of observable effects it
performs, in program order: calls of the React state setters, the HTTP request,
the call of the Appwrite helper and the console output.  The state after a run
that nothing interrupts is obtained by replaying the setter calls on the state
before the run.  A run gives up control at each `await`; the pieces between
the `await`s of several runs in flight can follow each other in any order,
and the state is then obtained by replaying the pieces in that order.

The outside world (the TMDB service and the Trending Store behind the helpers
imported from `./appwrite`) is a parameter of every run.
-/

namespace MovieApp

/-! ## JavaScript values read by the component -/

/-- A JavaScript string value: its sequence of UTF-16 code units. -/
abbrev JSString := List (Fin 65536)

/-- The scalar JavaScript values a JSON payload field can evaluate to; a field
that is missing from the payload evaluates to `undefined`.  Numbers are
integer valued. -/
inductive JSVal where
  | undefined
  | null
  | bool (b : Bool)
  | num (n : Int)
  | str (s : String)
  deriving DecidableEq, Repr

/-- JavaScript truthiness (`ToBoolean`): `undefined`, `null`, `false`, `0` and
the empty string are falsy, everything else is truthy. -/
def JSVal.truthy : JSVal → Bool
  | .undefined => false
  | .null => false
  | .bool b => b
  | .num n => n != 0
  | .str s => s != ""

/-- The JavaScript operator `a || b`: `a` when it is truthy, else `b`. -/
def jsOr (a b : JSVal) : JSVal :=
  if a.truthy then a else b

/-- A movie record of the TMDB service (`MovieSummary`); the component only
passes it around. -/
structure Movie where
  id : Nat
  title : String
  deriving DecidableEq, Repr

/-- A document of the Appwrite collection behind the trending list. -/
structure TrendingEntry where
  id : String
  poster_url : String
  deriving DecidableEq, Repr

/-- The parsed JSON object `data`, as far as `fetchMovies` reads it:
`data.Response`, `data.Error` and `data.results` (`none` when the field is
missing, otherwise the array of movies). -/
structure Payload where
  Response : JSVal
  Error : JSVal
  results : Option (List Movie)
  deriving DecidableEq, Repr

/-- What `await response.json()` yields: the promise rejects (the body is not
JSON), or it resolves to `null`, or to an object. -/
inductive Body where
  | invalid
  | null
  | object (data : Payload)
  deriving DecidableEq, Repr

/-- What `await fetch(endpoint, API_OPTIONS)` yields: the promise rejects (no
answer at all), or it resolves to a response with its `ok` flag and body. -/
inductive FetchResult where
  | rejected
  | response (ok : Bool) (body : Body)
  deriving DecidableEq, Repr

/-- Outcome of awaiting a promise that carries no value. -/
inductive Settled where
  | resolved
  | rejected
  deriving DecidableEq, Repr

/-- Outcome of `await getTrendingMovies()`. -/
inductive TrendingResult where
  | resolved (movies : List TrendingEntry)
  | rejected
  deriving DecidableEq, Repr

/-- Outcome of a write to the Trending Store: the counter was created or
incremented, or the write failed. -/
inductive StoreWrite where
  | stored
  | failed
  deriving DecidableEq, Repr

/-- The outside world during one run: the answer of the Movie Query Service to
a request, the outcome of a write to the Trending Store, and the outcome of
`getTrendingMovies`. -/
structure World where
  fetch : String → FetchResult
  trendingWrite : JSString → Movie → StoreWrite
  getTrendingMovies : TrendingResult

/-! ## Strings and `encodeURI` -/

/-- The UTF-16 code units of a character. -/
def utf16Units (c : Char) : JSString :=
  if c.toNat < 0x10000 then [⟨c.toNat % 65536, Nat.mod_lt _ (by decide)⟩]
  else
    [⟨(0xD800 + (c.toNat - 0x10000) / 1024) % 65536, Nat.mod_lt _ (by decide)⟩,
     ⟨(0xDC00 + (c.toNat - 0x10000) % 1024) % 65536, Nat.mod_lt _ (by decide)⟩]

/-- The JavaScript string of a text. -/
def utf16 (s : String) : JSString :=
  s.data.flatMap utf16Units

/-- A leading surrogate code unit. -/
def isLeadSurrogate (u : Nat) : Bool :=
  0xD800 ≤ u && u ≤ 0xDBFF

/-- A trailing surrogate code unit. -/
def isTrailSurrogate (u : Nat) : Bool :=
  0xDC00 ≤ u && u ≤ 0xDFFF

/-- The code points of a JavaScript string, read as `encodeURI` reads them
(`CodePointAt`): a leading surrogate followed by a trailing one is one code
point; `none` when the string holds an unpaired surrogate. -/
def codePoints : JSString → Option (List Char)
  | [] => some []
  | u :: rest =>
    if !(isLeadSurrogate u.val || isTrailSurrogate u.val) then
      (codePoints rest).map (Char.ofNat u.val :: ·)
    else if isLeadSurrogate u.val then
      match rest with
      | v :: rest2 =>
        if isTrailSurrogate v.val then
          (codePoints rest2).map
            (Char.ofNat (0x10000 + (u.val - 0xD800) * 1024 + (v.val - 0xDC00)) :: ·)
        else none
      | [] => none
    else none

/-- The characters `uriReserved` of ECMAScript, which `encodeURI` leaves as they are. -/
def uriReserved : List Char := [';', '/', '?', ':', '@', '&', '=', '+', '$', ',']

/-- The punctuation of `uriUnescaped` (`uriMark`): `- _ . ! ~ * ' ( )`. -/
def uriMark : List Char := ['-', '_', '.', '!', '~', '*', Char.ofNat 39, '(', ')']

/-- The set of characters `encodeURI` does not escape: letters, digits,
`uriMark`, `uriReserved` and `#`. -/
def uriKept (c : Char) : Bool :=
  c.isAlpha || c.isDigit || uriMark.contains c || uriReserved.contains c || c == '#'

/-- The UTF-8 encoding of a code point, as a list of octets. -/
def utf8Octets (n : Nat) : List Nat :=
  if n < 0x80 then [n]
  else if n < 0x800 then [0xC0 + n / 64, 0x80 + n % 64]
  else if n < 0x10000 then [0xE0 + n / 4096, 0x80 + n / 64 % 64, 0x80 + n % 64]
  else [0xF0 + n / 262144, 0x80 + n / 4096 % 64, 0x80 + n / 64 % 64, 0x80 + n % 64]

/-- The upper-case hexadecimal digit of a value below 16. -/
def hexDigit (d : Nat) : Char :=
  if d < 10 then Char.ofNat (48 + d) else Char.ofNat (55 + d)

/-- The escape `%XX` of one octet. -/
def percentOctet (b : Nat) : List Char :=
  ['%', hexDigit (b / 16), hexDigit (b % 16)]

/-- What `encodeURI` emits for one code point. -/
def encodeURIChar (c : Char) : List Char :=
  if uriKept c then [c] else (utf8Octets c.toNat).flatMap percentOctet

/-- The function `encodeURI` of JavaScript; `none` when it throws a `URIError`,
which it does on a string with an unpaired surrogate. -/
def encodeURI (s : JSString) : Option String :=
  (codePoints s).map fun cs => String.mk (cs.flatMap encodeURIChar)

/-! ## The component -/

/-- The constant `API_BASE_URL`. -/
def API_BASE_URL : String := "https://api.themoviedb.org/3"

/-- The endpoint computed for a query (lines 44-46): the search endpoint for
a truthy (non-empty) query, the discover endpoint otherwise; `none` when
`encodeURI` throws. -/
def endpoint (query : JSString) : Option String :=
  if !query.isEmpty then
    (encodeURI query).map fun escaped => API_BASE_URL ++ "/search/movie?query=" ++ escaped
  else some (API_BASE_URL ++ "/discover/movie?sort_by=popularity.desc")

/-- The view state held by `App` through `useState`. -/
structure State where
  searchTerm : JSString
  errorMessage : JSVal
  movieList : List Movie
  isLoading : Bool
  debounceSearchTerm : JSString
  trendingMovies : List TrendingEntry
  deriving DecidableEq, Repr

/-- The state at the first render (the arguments of the `useState` calls). -/
def initialState : State where
  searchTerm := []
  errorMessage := .null
  movieList := []
  isLoading := false
  debounceSearchTerm := []
  trendingMovies := []

/-- What made control leave the `try` block of `fetchMovies` early. -/
inductive Thrown where
  | uriError
  | fetchRejected
  | notOk
  | jsonRejected
  | typeError
  | updateSearchCountRejected
  deriving DecidableEq, Repr

/-- The observable effects of the two operations and of the helper. -/
inductive Event where
  | setIsLoading (b : Bool)
  | setErrorMessage (v : JSVal)
  | setMovieList (ms : List Movie)
  | setTrendingMovies (ms : List TrendingEntry)
  | fetch (url : String)
  | updateSearchCount (query : JSString) (movie : Movie)
  | consoleLog (cause : Thrown)
  | consoleError
  | helperLog
  deriving DecidableEq, Repr

/-- The message the provider-error branch falls back to (line 55). -/
def fallbackMessage : String := "Failed to fetch movies"

/-- The message set by the `catch` block (line 68). -/
def genericMessage : String := "Error fetching movies. Please try again later."

/-- Modelled from the spec: the helper `updateSearchCount` of `./appwrite`,
which is not among the sources (the spec's `recordSearch`).  It writes through
to the Trending Store; a failure of that write is logged only, never retried
and never handed to the caller, so the call settles as resolved either way.
The result is what the helper logs and how its promise settles. -/
def updateSearchCount (w : World) (query : JSString) (movie : Movie) :
    List Event × Settled :=
  match w.trendingWrite query movie with
  | .stored => ([], .resolved)
  | .failed => ([.helperLog], .resolved)

/-- Lines 53-65, after a response with `response.ok`: the effects performed
and, when an exception leaves the `try` block, its cause. -/
def afterJson (w : World) (query : JSString) : Body → List Event × Option Thrown
  | .invalid => ([], some .jsonRejected)
  -- reading `data.Response` of `null` throws
  | .null => ([], some .typeError)
  | .object data =>
    if data.Response.truthy then
      ([.setErrorMessage (jsOr data.Error (.str fallbackMessage)), .setMovieList []], none)
    else
      let shown := [Event.setMovieList (data.results.getD [])]
      if !query.isEmpty then
        match data.results with
        -- reading `data.results.length` of `undefined` throws
        | none => (shown, some .typeError)
        | some results =>
          if h : 0 < results.length then
            let call := Event.updateSearchCount query results[0]
              :: (updateSearchCount w query results[0]).1
            match (updateSearchCount w query results[0]).2 with
            | .resolved => (shown ++ call, none)
            | .rejected => (shown ++ call, some .updateSearchCountRejected)
          else (shown, none)
      else (shown, none)

/-- The `try` block of `fetchMovies` (lines 42-65). -/
def tryBlock (w : World) (query : JSString) : List Event × Option Thrown :=
  match endpoint query with
  -- `encodeURI` throws before anything is requested
  | none => ([], some .uriError)
  | some url =>
    let request := [Event.fetch url]
    match w.fetch url with
    | .rejected => (request, some .fetchRejected)
    | .response ok body =>
      if !ok then (request, some .notOk)
      else ((request ++ (afterJson w query body).1), (afterJson w query body).2)

/-- The `catch` block of `fetchMovies` (lines 66-68). -/
def catchBlock : Option Thrown → List Event
  | none => []
  | some cause => [.consoleLog cause, .setErrorMessage (.str genericMessage)]

/-- The effects of one run of `fetchMovies(query)`, in program order. -/
def fetchMovies (w : World) (query : JSString) : List Event :=
  [.setIsLoading true, .setErrorMessage (.str "")]
    ++ (tryBlock w query).1
    ++ catchBlock (tryBlock w query).2
    ++ [.setIsLoading false]

/-- The effects of one run of `loadTrendingMovies()` (lines 75-82). -/
def loadTrendingMovies (w : World) : List Event :=
  match w.getTrendingMovies with
  | .resolved movies => [.setTrendingMovies movies]
  | .rejected => [.consoleError]

/-- The effect of one event on the view state: a setter replaces its field,
everything else leaves the state alone. -/
def State.apply (s : State) : Event → State
  | .setIsLoading b => { s with isLoading := b }
  | .setErrorMessage v => { s with errorMessage := v }
  | .setMovieList ms => { s with movieList := ms }
  | .setTrendingMovies ms => { s with trendingMovies := ms }
  | _ => s

/-- The state after a sequence of events. -/
def State.replay (s : State) (es : List Event) : State :=
  es.foldl State.apply s

/-- The state in which a run of `fetchMovies(query)` that nothing interrupts
leaves the component. -/
def runFetchMovies (w : World) (query : JSString) (s : State) : State :=
  s.replay (fetchMovies w query)

/-- The state in which a run of `loadTrendingMovies()` leaves the component. -/
def runLoadTrendingMovies (w : World) (s : State) : State :=
  s.replay (loadTrendingMovies w)

/-- The requests a run issued. -/
def requests (es : List Event) : List String :=
  es.filterMap fun e => match e with
    | .fetch url => some url
    | _ => none

/-- The Trending Store writes a run made, with their arguments. -/
def trendingWrites (es : List Event) : List (JSString × Movie) :=
  es.filterMap fun e => match e with
    | .updateSearchCount q m => some (q, m)
    | _ => none

/-- The values a run passed to `setErrorMessage`. -/
def errorUpdates (es : List Event) : List JSVal :=
  es.filterMap fun e => match e with
    | .setErrorMessage v => some v
    | _ => none

/-- The values a run passed to `setIsLoading`. -/
def loadingUpdates (es : List Event) : List Bool :=
  es.filterMap fun e => match e with
    | .setIsLoading b => some b
    | _ => none

/-- The causes a run logged from its `catch` block. -/
def caught (es : List Event) : List Thrown :=
  es.filterMap fun e => match e with
    | .consoleLog cause => some cause
    | _ => none

/-- A world for examples: the service answers every request with `r`, a
Trending Store write ends as `u`, and the Trending Store read as `t`. -/
def World.const (r : FetchResult) (u : StoreWrite) (t : TrendingResult) : World where
  fetch := fun _ => r
  trendingWrite := fun _ _ => u
  getTrendingMovies := t

/-! ## Runs one after another, and runs that overlap -/

/-- The runs of `fetchMovies` completed so far, each with the world it ran in
and its query, when they do not overlap: every run completes before the next
one starts, from the first render. -/
def afterRuns (runs : List (World × JSString)) : State :=
  runs.foldl (fun s r => runFetchMovies r.1 r.2 s) initialState

/-- The effects after which a run gives up control: the request, awaited on
line 48 (and, with nothing observable in between, the body awaited on line
53), the call of the helper, awaited on line 64, and what the helper does
before it settles. -/
def Event.awaited : Event → Bool
  | .fetch _ => true
  | .updateSearchCount _ _ => true
  | .helperLog => true
  | _ => false

/-- The pieces of a run between its `await`s; the event loop runs each piece
without interruption. -/
def pieces : List Event → List (List Event)
  | [] => []
  | e :: es =>
    if e.awaited then [e] :: pieces es
    else
      match pieces es with
      | [] => [[e]]
      | piece :: rest => (e :: piece) :: rest

/-- The effects of runs in flight whose pieces take turns: `order` names, turn
by turn, the run that continues with its next piece; `pending` holds the
pieces each run has left.  `none` when a turn names a run with nothing left,
or when pieces are left over at the end. -/
def interleave : List Nat → List (List (List Event)) → Option (List Event)
  | [], pending => if pending.all List.isEmpty then some [] else none
  | i :: order, pending =>
    match pending[i]? with
    | some (piece :: rest) => (interleave order (pending.set i rest)).map (piece ++ ·)
    | _ => none

/-- The state after the runs `runs` have all completed, from the first render,
when they were in flight together and their pieces took turns as `order`
says. -/
def afterOverlappingRuns (runs : List (World × JSString)) (order : List Nat) :
    Option State :=
  (interleave order (runs.map fun r => pieces (fetchMovies r.1 r.2))).map
    initialState.replay

/-- The order in which no two runs overlap: the run numbered `k` takes all its
turns, then the next one. -/
def serialFrom (k : Nat) : List (List (List Event)) → List Nat
  | [] => []
  | run :: runs => List.replicate run.length k ++ serialFrom (k + 1) runs

/-- The order of turns of runs that follow each other without overlap. -/
def serialOrder (runs : List (World × JSString)) : List Nat :=
  serialFrom 0 (runs.map fun r => pieces (fetchMovies r.1 r.2))

/-! ## Reading a URL back (RFC 3986)

These definitions do not come from the component: they say how the receiver
of a URL takes it apart, and serve to state that a query text survives the
way `fetchMovies` builds the search address. -/

/-- The query component of a URL: what stands after the first `?` and before
the first `#` (where the fragment starts). -/
def queryComponent (url : List Char) : List Char :=
  ((url.takeWhile (· != '#')).dropWhile (· != '?')).drop 1

/-- The pieces of a text between the occurrences of a separator. -/
def splitOnChar (sep : Char) : List Char → List (List Char)
  | [] => [[]]
  | c :: cs =>
    if c = sep then [] :: splitOnChar sep cs
    else
      match splitOnChar sep cs with
      | [] => [[c]]
      | piece :: rest => (c :: piece) :: rest

/-- The value of a hexadecimal digit. -/
def hexValue (c : Char) : Option Nat :=
  if 48 ≤ c.toNat ∧ c.toNat ≤ 57 then some (c.toNat - 48)
  else if 65 ≤ c.toNat ∧ c.toNat ≤ 70 then some (c.toNat - 55)
  else if 97 ≤ c.toNat ∧ c.toNat ≤ 102 then some (c.toNat - 87)
  else none

/-- Where a percent-decoder stands: outside an escape, after `%`, or after
`%` and the first digit. -/
inductive Escape where
  | outside
  | percent
  | high (a : Nat)
  deriving DecidableEq, Repr

/-- Percent-decoding into octets, from a decoder position; `none` for an
escape that is cut short or has a digit that is not hexadecimal. -/
def percentDecodeFrom : Escape → List Char → Option (List Nat)
  | .outside, [] => some []
  | .percent, [] => none
  | .high _, [] => none
  | .outside, c :: cs =>
    if c = '%' then percentDecodeFrom .percent cs
    else (percentDecodeFrom .outside cs).map (utf8Octets c.toNat ++ ·)
  | .percent, c :: cs =>
    match hexValue c with
    | some a => percentDecodeFrom (.high a) cs
    | none => none
  | .high a, c :: cs =>
    match hexValue c with
    | some b => (percentDecodeFrom .outside cs).map fun rest => (16 * a + b) :: rest
    | none => none

/-- Percent-decoding of a text into octets. -/
def percentDecode (cs : List Char) : Option (List Nat) :=
  percentDecodeFrom .outside cs

/-- The parameters of a URL: the pieces of its query component between `&`,
each split at its first `=` into a name and a percent-decoded value. -/
def queryParameters (url : String) : List (String × Option (List Nat)) :=
  (splitOnChar '&' (queryComponent url.data)).map fun piece =>
    (String.mk (piece.takeWhile (· != '=')),
      percentDecode ((piece.dropWhile (· != '=')).drop 1))

/-- The UTF-8 octets of a sequence of code points. -/
def utf8 (cs : List Char) : List Nat :=
  cs.flatMap fun c => utf8Octets c.toNat

/-- Whether the query text survives the search address built for it: the
address has the single parameter `query`, and its value decodes to the text. -/
def queryRoundTrips (query : JSString) : Bool :=
  match codePoints query, endpoint query with
  | some cs, some url => decide (queryParameters url = [("query", some (utf8 cs))])
  | _, _ => false

/-! ## The paths through `fetchMovies` -/

theorem replay_append (s : State) (es fs : List Event) :
    s.replay (es ++ fs) = (s.replay es).replay fs := by
  simp [State.replay, List.foldl_append]

theorem updateSearchCount_resolved (w : World) (query : JSString) (m : Movie) :
    (updateSearchCount w query m).2 = .resolved := by
  unfold updateSearchCount
  cases w.trendingWrite query m <;> rfl

theorem fetchMovies_of_uriError {w : World} {query : JSString}
    (h : endpoint query = none) :
    fetchMovies w query =
      [.setIsLoading true, .setErrorMessage (.str ""),
       .consoleLog .uriError, .setErrorMessage (.str genericMessage),
       .setIsLoading false] := by
  simp [fetchMovies, tryBlock, h, catchBlock]

theorem fetchMovies_of_rejected {w : World} {query : JSString} {url : String}
    (hurl : endpoint query = some url) (h : w.fetch url = .rejected) :
    fetchMovies w query =
      [.setIsLoading true, .setErrorMessage (.str ""), .fetch url,
       .consoleLog .fetchRejected, .setErrorMessage (.str genericMessage),
       .setIsLoading false] := by
  simp [fetchMovies, tryBlock, hurl, h, catchBlock]

theorem fetchMovies_of_notOk {w : World} {query : JSString} {url : String} {body : Body}
    (hurl : endpoint query = some url) (h : w.fetch url = .response false body) :
    fetchMovies w query =
      [.setIsLoading true, .setErrorMessage (.str ""), .fetch url,
       .consoleLog .notOk, .setErrorMessage (.str genericMessage),
       .setIsLoading false] := by
  simp [fetchMovies, tryBlock, hurl, h, catchBlock]

theorem fetchMovies_of_ok {w : World} {query : JSString} {url : String} {body : Body}
    (hurl : endpoint query = some url) (h : w.fetch url = .response true body) :
    fetchMovies w query =
      [.setIsLoading true, .setErrorMessage (.str ""), .fetch url]
        ++ (afterJson w query body).1 ++ catchBlock (afterJson w query body).2
        ++ [.setIsLoading false] := by
  simp [fetchMovies, tryBlock, hurl, h]

theorem afterJson_flagged (w : World) (query : JSString) {data : Payload}
    (h : data.Response.truthy = true) :
    afterJson w query (.object data) =
      ([.setErrorMessage (jsOr data.Error (.str fallbackMessage)), .setMovieList []], none) := by
  simp [afterJson, h]

theorem afterJson_popular (w : World) {data : Payload}
    (h : data.Response.truthy = false) :
    afterJson w [] (.object data) = ([.setMovieList (data.results.getD [])], none) := by
  simp [afterJson, h]

theorem afterJson_missing (w : World) {query : JSString} {data : Payload}
    (h : data.Response.truthy = false) (hq : query ≠ []) (hr : data.results = none) :
    afterJson w query (.object data) = ([.setMovieList []], some .typeError) := by
  simp [afterJson, h, hq, hr]

theorem afterJson_empty (w : World) {query : JSString} {data : Payload}
    (h : data.Response.truthy = false) (hr : data.results = some []) :
    afterJson w query (.object data) = ([.setMovieList []], none) := by
  simp [afterJson, h, hr]

theorem afterJson_found (w : World) {query : JSString} {data : Payload} {m : Movie}
    {ms : List Movie} (h : data.Response.truthy = false) (hq : query ≠ [])
    (hr : data.results = some (m :: ms)) :
    afterJson w query (.object data) =
      (.setMovieList (m :: ms) :: .updateSearchCount query m
          :: (updateSearchCount w query m).1, none) := by
  simp [afterJson, h, hq, hr, updateSearchCount_resolved]

theorem requests_updateSearchCount (w : World) (query : JSString) (m : Movie) :
    requests (updateSearchCount w query m).1 = [] := by
  unfold updateSearchCount
  cases w.trendingWrite query m <;> rfl

theorem loadingUpdates_updateSearchCount (w : World) (query : JSString) (m : Movie) :
    loadingUpdates (updateSearchCount w query m).1 = [] := by
  unfold updateSearchCount
  cases w.trendingWrite query m <;> rfl

theorem trendingWrites_updateSearchCount (w : World) (query : JSString) (m : Movie) :
    trendingWrites (updateSearchCount w query m).1 = [] := by
  unfold updateSearchCount
  cases w.trendingWrite query m <;> rfl

theorem replay_updateSearchCount (w : World) (query : JSString) (m : Movie) (s : State) :
    s.replay (updateSearchCount w query m).1 = s := by
  unfold updateSearchCount
  cases w.trendingWrite query m <;> rfl

theorem requests_append (es fs : List Event) :
    requests (es ++ fs) = requests es ++ requests fs := by
  simp [requests, List.filterMap_append]

theorem loadingUpdates_append (es fs : List Event) :
    loadingUpdates (es ++ fs) = loadingUpdates es ++ loadingUpdates fs := by
  simp [loadingUpdates, List.filterMap_append]

theorem requests_afterJson (w : World) (query : JSString) (body : Body) :
    requests (afterJson w query body).1 = [] := by
  cases body with
  | invalid => rfl
  | null => rfl
  | object data =>
    cases hflag : data.Response.truthy
    · by_cases hq : query = []
      · subst hq; rw [afterJson_popular w hflag]; rfl
      · cases hr : data.results with
        | none => rw [afterJson_missing w hflag hq hr]; rfl
        | some rs =>
          cases rs with
          | nil => rw [afterJson_empty w hflag hr]; rfl
          | cons m ms =>
            rw [afterJson_found w hflag hq hr]
            exact requests_updateSearchCount w query m
    · rw [afterJson_flagged w query hflag]; rfl

theorem loadingUpdates_afterJson (w : World) (query : JSString) (body : Body) :
    loadingUpdates (afterJson w query body).1 = [] := by
  cases body with
  | invalid => rfl
  | null => rfl
  | object data =>
    cases hflag : data.Response.truthy
    · by_cases hq : query = []
      · subst hq; rw [afterJson_popular w hflag]; rfl
      · cases hr : data.results with
        | none => rw [afterJson_missing w hflag hq hr]; rfl
        | some rs =>
          cases rs with
          | nil => rw [afterJson_empty w hflag hr]; rfl
          | cons m ms =>
            rw [afterJson_found w hflag hq hr]
            exact loadingUpdates_updateSearchCount w query m
    · rw [afterJson_flagged w query hflag]; rfl

theorem requests_catchBlock (t : Option Thrown) : requests (catchBlock t) = [] := by
  cases t <;> rfl

theorem loadingUpdates_catchBlock (t : Option Thrown) :
    loadingUpdates (catchBlock t) = [] := by
  cases t <;> rfl

theorem requests_tryBlock (w : World) (query : JSString) :
    requests (tryBlock w query).1 = (endpoint query).toList := by
  unfold tryBlock
  cases endpoint query with
  | none => rfl
  | some url =>
    cases hf : w.fetch url with
    | rejected => simp only [hf]; rfl
    | response ok body =>
      cases ok
      · simp only [hf]; rfl
      · simp only [hf, Bool.not_true, Bool.false_eq_true, if_false, requests_append,
          requests_afterJson]
        rfl

theorem loadingUpdates_tryBlock (w : World) (query : JSString) :
    loadingUpdates (tryBlock w query).1 = [] := by
  unfold tryBlock
  cases endpoint query with
  | none => rfl
  | some url =>
    cases hf : w.fetch url with
    | rejected => simp only [hf]; rfl
    | response ok body =>
      cases ok
      · simp only [hf]; rfl
      · simp only [hf, Bool.not_true, Bool.false_eq_true, if_false, loadingUpdates_append,
          loadingUpdates_afterJson]
        rfl

theorem requests_fetchMovies (w : World) (query : JSString) :
    requests (fetchMovies w query) = (endpoint query).toList := by
  rw [fetchMovies]
  simp only [requests_append, requests_tryBlock, requests_catchBlock]
  simp [requests]

/-! ## C2: the success path -/

/-- A response with `response.ok`, no provider-error flag and a result list,
on which any Trending Store write succeeds, leaves the list in `movieList`
and the error message empty. -/
theorem fetchMovies_success_with_results (w : World) (query : JSString) (url : String)
    (s : State) (data : Payload) (rs : List Movie)
    (hurl : endpoint query = some url)
    (hresp : w.fetch url = .response true (.object data))
    (hflag : data.Response.truthy = false)
    (hrs : data.results = some rs)
    (hwrite : ∀ m, w.trendingWrite query m = .stored) :
    (runFetchMovies w query s).movieList = rs
      ∧ (runFetchMovies w query s).errorMessage = .str "" := by
  by_cases hq : query = []
  · subst hq
    simp [runFetchMovies, fetchMovies_of_ok hurl hresp, afterJson_popular w hflag, hrs,
      catchBlock, State.replay, State.apply]
  · cases rs with
    | nil =>
      simp [runFetchMovies, fetchMovies_of_ok hurl hresp, afterJson_empty w hflag hrs,
        catchBlock, State.replay, State.apply]
    | cons m ms =>
      simp [runFetchMovies, fetchMovies_of_ok hurl hresp, afterJson_found w hflag hq hrs,
        updateSearchCount, hwrite m, catchBlock, State.replay, State.apply]

/-- The success path at a concrete input: the search for `batman` returns
three movies and the Trending Store write succeeds. -/
theorem fetchMovies_success_with_results_witness :
    (runFetchMovies
        (World.const
          (.response true (.object ⟨.undefined, .undefined,
            some [⟨1, "Batman"⟩, ⟨2, "Batman Returns"⟩, ⟨3, "Batman Begins"⟩]⟩))
          .stored .rejected)
        (utf16 "batman") initialState).movieList
        = [⟨1, "Batman"⟩, ⟨2, "Batman Returns"⟩, ⟨3, "Batman Begins"⟩]
      ∧ (runFetchMovies
        (World.const
          (.response true (.object ⟨.undefined, .undefined,
            some [⟨1, "Batman"⟩, ⟨2, "Batman Returns"⟩, ⟨3, "Batman Begins"⟩]⟩))
          .stored .rejected)
        (utf16 "batman") initialState).errorMessage = .str "" :=
  fetchMovies_success_with_results
    (World.const
      (.response true (.object ⟨.undefined, .undefined,
        some [⟨1, "Batman"⟩, ⟨2, "Batman Returns"⟩, ⟨3, "Batman Begins"⟩]⟩))
      .stored .rejected)
    (utf16 "batman") "https://api.themoviedb.org/3/search/movie?query=batman" initialState
    ⟨.undefined, .undefined, some [⟨1, "Batman"⟩, ⟨2, "Batman Returns"⟩, ⟨3, "Batman Begins"⟩]⟩
    [⟨1, "Batman"⟩, ⟨2, "Batman Returns"⟩, ⟨3, "Batman Begins"⟩]
    (by decide) rfl rfl rfl (fun _ => rfl)

/-- The popular view (empty query) copes with a payload that has no `results`
field: the list shown is empty and no error is set. -/
theorem fetchMovies_popular_missing_results (w : World) (url : String) (s : State)
    (data : Payload)
    (hurl : endpoint [] = some url)
    (hresp : w.fetch url = .response true (.object data))
    (hflag : data.Response.truthy = false)
    (hrs : data.results = none) :
    (runFetchMovies w [] s).movieList = []
      ∧ (runFetchMovies w [] s).errorMessage = .str "" := by
  simp [runFetchMovies, fetchMovies_of_ok hurl hresp, afterJson_popular w hflag, hrs,
    catchBlock, State.replay, State.apply]

/-- C2, at the input where the code departs from it: the query is `batman`,
the response has a success status and its payload is the empty object (no
provider-error flag, no `results` field).  Line 60 shows the empty list, then
reading `data.results.length` on line 63 throws, and the `catch` block sets
the generic error message. -/
theorem fetchMovies_search_missing_results :
    fetchMovies
        (World.const (.response true (.object ⟨.undefined, .undefined, none⟩)) .stored .rejected)
        (utf16 "batman")
      = [.setIsLoading true, .setErrorMessage (.str ""),
         .fetch "https://api.themoviedb.org/3/search/movie?query=batman",
         .setMovieList [], .consoleLog .typeError,
         .setErrorMessage (.str "Error fetching movies. Please try again later."),
         .setIsLoading false]
      ∧ (runFetchMovies
          (World.const (.response true (.object ⟨.undefined, .undefined, none⟩)) .stored .rejected)
          (utf16 "batman") initialState).errorMessage
        = .str "Error fetching movies. Please try again later."
      ∧ (runFetchMovies
          (World.const (.response true (.object ⟨.undefined, .undefined, none⟩)) .stored .rejected)
          (utf16 "batman") initialState).movieList = [] := by
  decide

/-! ## C3: the provider-error path -/

/-- C3: when the response has a success status and the payload carries a
truthy `Response`, the run ends with an empty result list and with the error
set to the provider's message `data.Error` when there is one (a truthy value),
and to `Failed to fetch movies` when there is none (the field is missing or
falsy).  The `catch` block does not run: nothing is logged, the only error
updates are the initial clearing and that message, and no Trending Store write
is made. -/
theorem fetchMovies_provider_error (w : World) (query : JSString) (url : String) (s : State)
    (data : Payload)
    (hurl : endpoint query = some url)
    (hresp : w.fetch url = .response true (.object data))
    (hflag : data.Response.truthy = true) :
    (runFetchMovies w query s).movieList = []
      ∧ (data.Error.truthy = true → (runFetchMovies w query s).errorMessage = data.Error)
      ∧ (data.Error = .undefined →
          (runFetchMovies w query s).errorMessage = .str "Failed to fetch movies")
      ∧ (data.Error.truthy = false →
          (runFetchMovies w query s).errorMessage = .str "Failed to fetch movies")
      ∧ caught (fetchMovies w query) = []
      ∧ errorUpdates (fetchMovies w query) = [.str "", (runFetchMovies w query s).errorMessage]
      ∧ trendingWrites (fetchMovies w query) = [] := by
  have hrun : fetchMovies w query =
      [.setIsLoading true, .setErrorMessage (.str ""), .fetch url,
       .setErrorMessage (jsOr data.Error (.str fallbackMessage)), .setMovieList [],
       .setIsLoading false] := by
    simp [fetchMovies_of_ok hurl hresp, afterJson_flagged w query hflag, catchBlock]
  have herr : (runFetchMovies w query s).errorMessage
      = jsOr data.Error (.str fallbackMessage) := by
    simp [runFetchMovies, hrun, State.replay, State.apply]
  refine ⟨?_, ?_, ?_, ?_, ?_, ?_, ?_⟩
  · simp [runFetchMovies, hrun, State.replay, State.apply]
  · intro h; rw [herr]; simp [jsOr, h]
  · intro h; rw [herr]; simp [jsOr, h, JSVal.truthy, fallbackMessage]
  · intro h; rw [herr]; simp [jsOr, h, fallbackMessage]
  · rw [hrun]; rfl
  · rw [herr, hrun]; rfl
  · rw [hrun]; rfl

/-- C3 at a concrete input: the provider answers the query `zzzz` with the flag
`Response` set to the string `False` and the message `Movie not found!`. -/
theorem fetchMovies_provider_error_witness :
    (runFetchMovies
        (World.const (.response true (.object ⟨.str "False", .str "Movie not found!", none⟩))
          .stored .rejected)
        (utf16 "zzzz") { initialState with movieList := [⟨7, "Old"⟩] }).movieList = []
      ∧ (runFetchMovies
        (World.const (.response true (.object ⟨.str "False", .str "Movie not found!", none⟩))
          .stored .rejected)
        (utf16 "zzzz") { initialState with movieList := [⟨7, "Old"⟩] }).errorMessage
          = .str "Movie not found!" :=
  have h := fetchMovies_provider_error
    (World.const (.response true (.object ⟨.str "False", .str "Movie not found!", none⟩))
      .stored .rejected)
    (utf16 "zzzz") "https://api.themoviedb.org/3/search/movie?query=zzzz"
    { initialState with movieList := [⟨7, "Old"⟩] }
    ⟨.str "False", .str "Movie not found!", none⟩ (by decide) rfl (by decide)
  ⟨h.1, h.2.1 (by decide)⟩

/-! ## C4: a non-success status -/

/-- C4: when the service answers with a non-success status (`response.ok` is
false), the run ends with the error set to the generic message, with the
result list it started with, and without any Trending Store write. -/
theorem fetchMovies_not_ok (w : World) (query : JSString) (url : String) (s : State)
    (body : Body)
    (hurl : endpoint query = some url)
    (hresp : w.fetch url = .response false body) :
    (runFetchMovies w query s).errorMessage
        = .str "Error fetching movies. Please try again later."
      ∧ (runFetchMovies w query s).movieList = s.movieList
      ∧ trendingWrites (fetchMovies w query) = [] := by
  rw [runFetchMovies, fetchMovies_of_notOk hurl hresp]
  exact ⟨rfl, rfl, rfl⟩

/-- C4 at a concrete input: a list of one movie is on display when the search
for `batman` is answered with a non-success status. -/
theorem fetchMovies_not_ok_witness :
    (runFetchMovies (World.const (.response false .invalid) .stored .rejected)
        (utf16 "batman") { initialState with movieList := [⟨7, "Old"⟩] }).errorMessage
        = .str "Error fetching movies. Please try again later."
      ∧ (runFetchMovies (World.const (.response false .invalid) .stored .rejected)
        (utf16 "batman") { initialState with movieList := [⟨7, "Old"⟩] }).movieList
        = [⟨7, "Old"⟩]
      ∧ trendingWrites
          (fetchMovies (World.const (.response false .invalid) .stored .rejected)
            (utf16 "batman"))
        = [] :=
  fetchMovies_not_ok (World.const (.response false .invalid) .stored .rejected)
    (utf16 "batman") "https://api.themoviedb.org/3/search/movie?query=batman"
    { initialState with movieList := [⟨7, "Old"⟩] } .invalid (by decide) rfl

/-! ## C5: the Trending Store write -/

/-- C5: on a response with a success status, no provider-error flag and the
result list `rs`, a run makes exactly one Trending Store write, with the query
and the first element of `rs`, when the query and `rs` are both non-empty, and
makes none when the query is empty or `rs` is empty. -/
theorem fetchMovies_trending_writes (w : World) (query : JSString) (url : String)
    (data : Payload) (rs : List Movie)
    (hurl : endpoint query = some url)
    (hresp : w.fetch url = .response true (.object data))
    (hflag : data.Response.truthy = false)
    (hrs : data.results = some rs) :
    (∀ m ms, query ≠ [] → rs = m :: ms →
        trendingWrites (fetchMovies w query) = [(query, m)])
      ∧ (query = [] ∨ rs = [] → trendingWrites (fetchMovies w query) = []) := by
  constructor
  · intro m ms hq hcons
    subst hcons
    rw [fetchMovies_of_ok hurl hresp, afterJson_found w hflag hq hrs]
    have h := trendingWrites_updateSearchCount w query m
    simp only [trendingWrites, catchBlock, List.filterMap_append, List.filterMap_cons,
      List.filterMap_nil, List.append_nil, List.cons_append, List.nil_append] at h ⊢
    rw [h]
  · rintro (hq | hnil)
    · subst hq
      rw [fetchMovies_of_ok hurl hresp, afterJson_popular w hflag]
      rfl
    · subst hnil
      rw [fetchMovies_of_ok hurl hresp, afterJson_empty w hflag hrs]
      rfl

/-- C5 at a concrete input: the search for `batman` returns three movies, and
the one write carries the query and the first of them. -/
theorem fetchMovies_trending_writes_witness :
    trendingWrites
        (fetchMovies
          (World.const
            (.response true (.object ⟨.undefined, .undefined,
              some [⟨1, "Batman"⟩, ⟨2, "Batman Returns"⟩, ⟨3, "Batman Begins"⟩]⟩))
            .stored .rejected)
          (utf16 "batman"))
      = [(utf16 "batman", ⟨1, "Batman"⟩)] :=
  (fetchMovies_trending_writes
    (World.const
      (.response true (.object ⟨.undefined, .undefined,
        some [⟨1, "Batman"⟩, ⟨2, "Batman Returns"⟩, ⟨3, "Batman Begins"⟩]⟩))
      .stored .rejected)
    (utf16 "batman") "https://api.themoviedb.org/3/search/movie?query=batman"
    ⟨.undefined, .undefined, some [⟨1, "Batman"⟩, ⟨2, "Batman Returns"⟩, ⟨3, "Batman Begins"⟩]⟩
    [⟨1, "Batman"⟩, ⟨2, "Batman Returns"⟩, ⟨3, "Batman Begins"⟩]
    (by decide) rfl rfl rfl).1 ⟨1, "Batman"⟩ [⟨2, "Batman Returns"⟩, ⟨3, "Batman Begins"⟩]
    (by decide) rfl

/-! ## C6: a Trending Store write that fails -/

/-- C6: for a non-empty query whose successful response has at least one
result, a failure of the Trending Store write is not surfaced: the helper logs
it and resolves, the `catch` block of `fetchMovies` does not run, the error
message stays the empty string set at the start of the run, and the returned
list is in `movieList`. -/
theorem fetchMovies_write_failure_not_surfaced (w : World) (query : JSString) (url : String)
    (s : State) (data : Payload) (m : Movie) (ms : List Movie)
    (hq : query ≠ [])
    (hurl : endpoint query = some url)
    (hresp : w.fetch url = .response true (.object data))
    (hflag : data.Response.truthy = false)
    (hrs : data.results = some (m :: ms))
    (hfail : w.trendingWrite query m = .failed) :
    (runFetchMovies w query s).errorMessage = .str ""
      ∧ (runFetchMovies w query s).errorMessage.truthy = false
      ∧ (runFetchMovies w query s).movieList = m :: ms
      ∧ caught (fetchMovies w query) = []
      ∧ errorUpdates (fetchMovies w query) = [.str ""]
      ∧ Event.helperLog ∈ fetchMovies w query := by
  have hrun : fetchMovies w query =
      [.setIsLoading true, .setErrorMessage (.str ""), .fetch url,
       .setMovieList (m :: ms), .updateSearchCount query m, .helperLog,
       .setIsLoading false] := by
    simp [fetchMovies_of_ok hurl hresp, afterJson_found w hflag hq hrs, updateSearchCount,
      hfail, catchBlock]
  rw [runFetchMovies, hrun]
  refine ⟨rfl, rfl, rfl, rfl, rfl, ?_⟩
  simp

/-- C6 at a concrete input: the search for `batman` returns one movie and the
Trending Store write fails. -/
theorem fetchMovies_write_failure_not_surfaced_witness :
    (runFetchMovies
        (World.const (.response true (.object ⟨.undefined, .undefined, some [⟨1, "Batman"⟩]⟩))
          .failed .rejected)
        (utf16 "batman") initialState).errorMessage = .str ""
      ∧ (runFetchMovies
        (World.const (.response true (.object ⟨.undefined, .undefined, some [⟨1, "Batman"⟩]⟩))
          .failed .rejected)
        (utf16 "batman") initialState).movieList = [⟨1, "Batman"⟩] :=
  have h := fetchMovies_write_failure_not_surfaced
    (World.const (.response true (.object ⟨.undefined, .undefined, some [⟨1, "Batman"⟩]⟩))
      .failed .rejected)
    (utf16 "batman") "https://api.themoviedb.org/3/search/movie?query=batman" initialState
    ⟨.undefined, .undefined, some [⟨1, "Batman"⟩]⟩ ⟨1, "Batman"⟩ []
    (by decide) (by decide) rfl rfl rfl rfl
  ⟨h.1, h.2.2.1⟩

/-! ## C7: the loading flag -/

/-- C7: whatever the world answers, the effects of a run start with
`setIsLoading(true)` and end with `setIsLoading(false)`, and nothing in between
touches the loading flag. -/
theorem fetchMovies_loading_bracket (w : World) (query : JSString) :
    ∃ mid, fetchMovies w query
        = Event.setIsLoading true :: (mid ++ [Event.setIsLoading false])
      ∧ loadingUpdates mid = [] := by
  refine ⟨Event.setErrorMessage (.str "")
    :: ((tryBlock w query).1 ++ catchBlock (tryBlock w query).2), ?_, ?_⟩
  · simp [fetchMovies]
  · have h : loadingUpdates (Event.setErrorMessage (.str "")
        :: ((tryBlock w query).1 ++ catchBlock (tryBlock w query).2))
        = loadingUpdates ((tryBlock w query).1 ++ catchBlock (tryBlock w query).2) := rfl
    rw [h, loadingUpdates_append, loadingUpdates_tryBlock, loadingUpdates_catchBlock]
    rfl

/-! ## C8: loading the trending list -/

/-- C8: a successful read stores the list returned by the Trending Store; a
failed read leaves the trending list as it was (empty on the first load); in
both cases the error message, the result list and the loading flag keep their
values. -/
theorem loadTrendingMovies_frame (w : World) (s : State) :
    (∀ movies, w.getTrendingMovies = .resolved movies →
        (runLoadTrendingMovies w s).trendingMovies = movies)
      ∧ (w.getTrendingMovies = .rejected →
          (runLoadTrendingMovies w s).trendingMovies = s.trendingMovies
            ∧ (runLoadTrendingMovies w initialState).trendingMovies = [])
      ∧ (runLoadTrendingMovies w s).errorMessage = s.errorMessage
      ∧ (runLoadTrendingMovies w s).movieList = s.movieList
      ∧ (runLoadTrendingMovies w s).isLoading = s.isLoading := by
  unfold runLoadTrendingMovies loadTrendingMovies
  refine ⟨?_, ?_, ?_, ?_, ?_⟩
  · intro movies h; rw [h]; rfl
  · intro h; rw [h]; exact ⟨rfl, rfl⟩
  · cases w.getTrendingMovies <;> rfl
  · cases w.getTrendingMovies <;> rfl
  · cases w.getTrendingMovies <;> rfl

/-! ## Runs that follow each other are a special case of runs that overlap -/

theorem pieces_flatten (es : List Event) : (pieces es).flatten = es := by
  induction es with
  | nil => rfl
  | cons e es ih =>
    unfold pieces
    split
    · simp [ih]
    · split
      · next h =>
        rw [h] at ih
        simp at ih
        simp [← ih]
      · next piece rest h =>
        rw [h] at ih
        simp at ih
        simp [← ih]

theorem interleave_replicate (p : List (List Event)) (done todo : List (List (List Event)))
    (order : List Nat) :
    interleave (List.replicate p.length done.length ++ order) (done ++ p :: todo)
      = (interleave order (done ++ [] :: todo)).map (p.flatten ++ ·) := by
  induction p with
  | nil => simp
  | cons x xs ih =>
    have hget : (done ++ (x :: xs) :: todo)[done.length]? = some (x :: xs) := by
      rw [List.getElem?_append_right (Nat.le_refl _)]
      simp
    have hset : (done ++ (x :: xs) :: todo).set done.length xs = done ++ xs :: todo := by
      simp
    simp only [List.length_cons, List.replicate_succ, List.cons_append]
    rw [interleave, hget]
    simp only [hset]
    rw [ih]
    cases interleave order (done ++ [] :: todo) <;> simp

theorem interleave_serialFrom (todo done : List (List (List Event)))
    (hdone : done.all List.isEmpty = true) :
    interleave (serialFrom done.length todo) (done ++ todo)
      = some (todo.map List.flatten).flatten := by
  induction todo generalizing done with
  | nil => simp [serialFrom, interleave, hdone]
  | cons p ps ih =>
    have hdone2 : (done ++ [[]]).all List.isEmpty = true := by
      simp [List.all_append, hdone]
    have h := ih (done ++ [[]]) hdone2
    simp only [List.length_append, List.length_singleton, List.append_assoc,
      List.singleton_append] at h
    simp [serialFrom, interleave_replicate, h]

theorem replay_flatten_runs (runs : List (World × JSString)) (s : State) :
    runs.foldl (fun s r => runFetchMovies r.1 r.2 s) s
      = s.replay (runs.map fun r => fetchMovies r.1 r.2).flatten := by
  induction runs generalizing s with
  | nil => rfl
  | cons r rs ih =>
    simp only [List.foldl_cons, List.map_cons, List.flatten_cons, replay_append, ih]
    rfl

/-- Runs whose turns follow the serial order leave the state that the same
runs leave when each completes before the next starts. -/
theorem afterOverlappingRuns_serialOrder (runs : List (World × JSString)) :
    afterOverlappingRuns runs (serialOrder runs) = some (afterRuns runs) := by
  have h := interleave_serialFrom (runs.map fun r => pieces (fetchMovies r.1 r.2)) [] rfl
  simp only [List.length_nil, List.nil_append] at h
  simp only [afterOverlappingRuns, serialOrder, h, Option.map_some', afterRuns,
    replay_flatten_runs, List.map_map]
  have hp : (List.flatten ∘ fun r : World × JSString => pieces (fetchMovies r.1 r.2))
      = fun r => fetchMovies r.1 r.2 := by
    funext r
    exact pieces_flatten _
  rw [hp]

/-! ## C9: error message and result list -/

/-- After any run that nothing interrupts: a truthy error message next to a
non-empty result list is the generic message of the `catch` block. -/
theorem runFetchMovies_error_with_results (w : World) (query : JSString) (s : State)
    (herr : (runFetchMovies w query s).errorMessage.truthy = true)
    (hres : (runFetchMovies w query s).movieList ≠ []) :
    (runFetchMovies w query s).errorMessage = .str genericMessage := by
  revert herr hres
  cases hurl : endpoint query with
  | none => rw [runFetchMovies, fetchMovies_of_uriError hurl]; intro _ _; rfl
  | some url =>
    rcases hf : w.fetch url with _ | ⟨ok, body⟩
    · rw [runFetchMovies, fetchMovies_of_rejected hurl hf]; intro _ _; rfl
    · cases ok
      · rw [runFetchMovies, fetchMovies_of_notOk hurl hf]; intro _ _; rfl
      · rw [runFetchMovies, fetchMovies_of_ok hurl hf]
        cases body with
        | invalid => intro _ _; rfl
        | null => intro _ _; rfl
        | object data =>
          cases hflag : data.Response.truthy
          · by_cases hq : query = []
            · subst hq
              rw [afterJson_popular w hflag]
              intro h
              exact absurd (show false = true from h) (by decide)
            · cases hr : data.results with
              | none => rw [afterJson_missing w hflag hq hr]; intro _ _; rfl
              | some rs =>
                cases rs with
                | nil =>
                  rw [afterJson_empty w hflag hr]
                  intro h
                  exact absurd (show false = true from h) (by decide)
                | cons m ms =>
                  rw [afterJson_found w hflag hq hr]
                  intro h
                  exfalso
                  simp only [catchBlock, List.append_nil, List.cons_append, List.nil_append,
                    replay_append] at h
                  unfold updateSearchCount at h
                  revert h
                  cases w.trendingWrite query m <;> intro h <;>
                    exact absurd (show false = true from h) (by decide)
          · rw [afterJson_flagged w query hflag]
            intro _ h
            exact absurd rfl h

theorem afterRuns_error_with_results (runs : List (World × JSString))
    (herr : (afterRuns runs).errorMessage.truthy = true)
    (hres : (afterRuns runs).movieList ≠ []) :
    (afterRuns runs).errorMessage = .str genericMessage := by
  rcases List.eq_nil_or_concat runs with h | ⟨init, last, h⟩
  · subst h
    exact absurd herr (by decide)
  · subst h
    simp only [afterRuns, List.concat_eq_append, List.foldl_append, List.foldl_cons,
      List.foldl_nil] at herr hres ⊢
    exact runFetchMovies_error_with_results _ _ _ herr hres

/-- C9 fails, in two ways.  Without overlap: a search for `batman` that
returns one movie, followed by a search for `joker` that is answered with a
non-success status, leaves the generic error message set next to the one-movie
list.  With overlap: the search for `batman` is waiting for its response when
a search for `zzzz` starts and ends on the provider's error; then the first
search resumes and stores its one movie, and both runs have completed with the
provider's message set next to the one-movie list. -/
theorem afterOverlappingRuns_error_and_results :
    afterOverlappingRuns
        [(World.const (.response true (.object ⟨.undefined, .undefined, some [⟨1, "Batman"⟩]⟩))
            .stored .rejected, utf16 "batman"),
         (World.const (.response false .invalid) .stored .rejected, utf16 "joker")]
        [0, 0, 0, 1, 1]
        = some { initialState with
            errorMessage := .str "Error fetching movies. Please try again later."
            movieList := [⟨1, "Batman"⟩] }
      ∧ afterOverlappingRuns
        [(World.const (.response true (.object ⟨.undefined, .undefined, some [⟨1, "Batman"⟩]⟩))
            .stored .rejected, utf16 "batman"),
         (World.const (.response true (.object ⟨.str "False", .str "Movie not found!", none⟩))
            .stored .rejected, utf16 "zzzz")]
        [0, 1, 1, 0, 0]
        = some { initialState with
            errorMessage := .str "Movie not found!"
            movieList := [⟨1, "Batman"⟩] } := by
  decide

/-- C9 as amended: when the runs of `fetchMovies` do not overlap (every run
completes before the next one starts), in the state reached from the first
render an error message that is set (truthy) while the result list is
non-empty is the generic message of the `catch` block; any other error left
by a run, that is the provider's, comes with the empty list. -/
theorem afterOverlappingRuns_serial_error_with_results (runs : List (World × JSString))
    (s : State)
    (hs : afterOverlappingRuns runs (serialOrder runs) = some s)
    (herr : s.errorMessage.truthy = true)
    (hres : s.movieList ≠ []) :
    s.errorMessage = .str "Error fetching movies. Please try again later." := by
  rw [afterOverlappingRuns_serialOrder] at hs
  cases hs
  exact afterRuns_error_with_results runs herr hres

/-- C9 as amended, at the two searches that follow each other in the
counterexample. -/
theorem afterOverlappingRuns_serial_error_with_results_witness :
    afterOverlappingRuns
        [(World.const (.response true (.object ⟨.undefined, .undefined, some [⟨1, "Batman"⟩]⟩))
            .stored .rejected, utf16 "batman"),
         (World.const (.response false .invalid) .stored .rejected, utf16 "joker")]
        (serialOrder
          [(World.const (.response true (.object ⟨.undefined, .undefined, some [⟨1, "Batman"⟩]⟩))
              .stored .rejected, utf16 "batman"),
           (World.const (.response false .invalid) .stored .rejected, utf16 "joker")])
        = some { initialState with
            errorMessage := .str "Error fetching movies. Please try again later."
            movieList := [⟨1, "Batman"⟩] }
      ∧ ({ initialState with
            errorMessage := .str "Error fetching movies. Please try again later."
            movieList := [⟨1, "Batman"⟩] } : State).movieList ≠ []
      ∧ ({ initialState with
            errorMessage := .str "Error fetching movies. Please try again later."
            movieList := [⟨1, "Batman"⟩] } : State).errorMessage
        = .str "Error fetching movies. Please try again later." :=
  ⟨by decide, by decide,
    afterOverlappingRuns_serial_error_with_results
      [(World.const (.response true (.object ⟨.undefined, .undefined, some [⟨1, "Batman"⟩]⟩))
          .stored .rejected, utf16 "batman"),
       (World.const (.response false .invalid) .stored .rejected, utf16 "joker")]
      { initialState with
          errorMessage := .str "Error fetching movies. Please try again later."
          movieList := [⟨1, "Batman"⟩] }
      (by decide) (by decide) (by decide)⟩

/-! ## Well-formed texts -/

theorem codePoints_utf16Units (c : Char) (rest : JSString) :
    codePoints (utf16Units c ++ rest) = (codePoints rest).map (c :: ·) := by
  have hvalid : c.toNat < 0xD800 ∨ (0xDFFF < c.toNat ∧ c.toNat < 0x110000) := c.valid
  have hofNat : Char.ofNat c.toNat = c := Char.ofNat_toNat c
  unfold utf16Units
  split
  · next hlt =>
    have hmod : c.toNat % 65536 = c.toNat := Nat.mod_eq_of_lt hlt
    have hns : (isLeadSurrogate c.toNat || isTrailSurrogate c.toNat) = false := by
      simp only [isLeadSurrogate, isTrailSurrogate, Bool.or_eq_false_iff, Bool.and_eq_false_iff,
        decide_eq_false_iff_not]
      rcases hvalid with h | h
      · constructor <;> left <;> omega
      · constructor <;> right <;> omega
    simp only [List.cons_append, List.nil_append]
    rw [codePoints.eq_def]
    simp only [hmod, hns, hofNat, Bool.not_false, if_true]
  · next hge =>
    have hbig : c.toNat < 0x110000 := by
      rcases hvalid with h | h
      · omega
      · exact h.2
    have h1 : (0xD800 + (c.toNat - 0x10000) / 1024) % 65536
        = 0xD800 + (c.toNat - 0x10000) / 1024 := Nat.mod_eq_of_lt (by omega)
    have h2 : (0xDC00 + (c.toNat - 0x10000) % 1024) % 65536
        = 0xDC00 + (c.toNat - 0x10000) % 1024 := Nat.mod_eq_of_lt (by omega)
    have hlead : isLeadSurrogate (0xD800 + (c.toNat - 0x10000) / 1024) = true := by
      simp only [isLeadSurrogate, Bool.and_eq_true, decide_eq_true_eq]
      omega
    have htrail : isTrailSurrogate (0xDC00 + (c.toNat - 0x10000) % 1024) = true := by
      simp only [isTrailSurrogate, Bool.and_eq_true, decide_eq_true_eq]
      omega
    have hback : 0x10000 + (0xD800 + (c.toNat - 0x10000) / 1024 - 0xD800) * 1024
        + (0xDC00 + (c.toNat - 0x10000) % 1024 - 0xDC00) = c.toNat := by
      omega
    simp only [List.cons_append, List.nil_append]
    rw [codePoints.eq_def]
    simp only [h1, h2, hlead, htrail, Bool.true_or, Bool.not_true, Bool.false_eq_true,
      if_false, if_true, hback, hofNat]

/-- Every text is a well-formed JavaScript string: its code points are read
back, so `encodeURI` returns on it. -/
theorem codePoints_utf16 (s : String) : codePoints (utf16 s) = some s.data := by
  unfold utf16
  induction s.data with
  | nil => rfl
  | cons c cs ih => rw [List.flatMap_cons, codePoints_utf16Units, ih]; rfl

/-! ## C1: the endpoint requested -/

/-- C1 fails for a query with an unpaired surrogate: the query is the single
code unit `D800`, `encodeURI` throws inside the `try` block before `fetch` is
called, no request is issued to any endpoint, and the `catch` block sets the
generic error message. -/
theorem fetchMovies_unpaired_surrogate_no_request :
    requests (fetchMovies (World.const (.response true .null) .stored .rejected) [0xD800]) = []
      ∧ fetchMovies (World.const (.response true .null) .stored .rejected) [0xD800]
        = [.setIsLoading true, .setErrorMessage (.str ""), .consoleLog .uriError,
           .setErrorMessage (.str "Error fetching movies. Please try again later."),
           .setIsLoading false] := by
  decide

/-- C1 as amended: a run of `fetchMovies` issues its one request to the
discover endpoint `base/discover/movie?sort_by=popularity.desc` when the query
is empty (which is not a search address), and to the search endpoint
`base/search/movie?query=` followed by `encodeURI` of the query when the query
is non-empty and `encodeURI` returns, as it does on every well-formed text;
when `encodeURI` throws (a non-empty query with an unpaired surrogate) the run
issues no request and ends with the generic error message. -/
theorem fetchMovies_requests_endpoint (w : World) (query : JSString) :
    requests (fetchMovies w query) =
        (if query = [] then
          ["https://api.themoviedb.org/3/discover/movie?sort_by=popularity.desc"]
         else
          match encodeURI query with
          | some escaped => ["https://api.themoviedb.org/3/search/movie?query=" ++ escaped]
          | none => [])
      ∧ requests (fetchMovies w []) =
        ["https://api.themoviedb.org/3/discover/movie?sort_by=popularity.desc"]
      ∧ ("https://api.themoviedb.org/3/search/movie?query=".data.isPrefixOf
          "https://api.themoviedb.org/3/discover/movie?sort_by=popularity.desc".data) = false
      ∧ (query ≠ [] → encodeURI query = none →
          ∀ s, (runFetchMovies w query s).errorMessage
            = .str "Error fetching movies. Please try again later.")
      ∧ (∀ text : String,
          encodeURI (utf16 text) = some (String.mk (text.data.flatMap encodeURIChar))) := by
  refine ⟨?_, ?_, by decide, ?_, fun text => by rw [encodeURI, codePoints_utf16]; rfl⟩
  · rw [requests_fetchMovies]
    by_cases hq : query = []
    · subst hq
      decide
    · cases henc : encodeURI query <;> simp [endpoint, API_BASE_URL, hq, henc]
  · rw [requests_fetchMovies]; decide
  · intro hq henc s
    have hurl : endpoint query = none := by simp [endpoint, hq, henc]
    rw [runFetchMovies, fetchMovies_of_uriError hurl]
    rfl

/-! ## C10: the query text in the search address -/

/-- C10, at inputs where the code departs from it: `encodeURI` leaves `&` and
`#` as they are, so the address built for `a&b` carries two parameters, `query`
with the value `a` and `b` with an empty value, and the address built for `a#b`
carries the parameter `query` with the value `a` (the rest is its fragment).
Neither query text round-trips. -/
theorem endpoint_reserved_characters :
    endpoint (utf16 "a&b") = some "https://api.themoviedb.org/3/search/movie?query=a&b"
      ∧ (endpoint (utf16 "a&b")).map queryParameters
        = some [("query", some [97]), ("b", some [])]
      ∧ queryRoundTrips (utf16 "a&b") = false
      ∧ endpoint (utf16 "a#b") = some "https://api.themoviedb.org/3/search/movie?query=a#b"
      ∧ (endpoint (utf16 "a#b")).map queryParameters = some [("query", some [97])]
      ∧ queryRoundTrips (utf16 "a#b") = false := by
  decide

/-- The query text does round-trip for plain words, blanks, letters outside
ASCII and the reserved characters `=`, `+` and `?`. -/
theorem queryRoundTrips_examples :
    queryRoundTrips (utf16 "the matrix") = true
      ∧ queryRoundTrips (utf16 "amélie") = true
      ∧ queryRoundTrips (utf16 "50%") = true
      ∧ queryRoundTrips (utf16 "a=b") = true
      ∧ queryRoundTrips (utf16 "a+b") = true
      ∧ queryRoundTrips (utf16 "a?b") = true := by
  decide

theorem hexValue_hexDigit (d : Nat) (h : d < 16) : hexValue (hexDigit d) = some d := by
  interval_cases d <;> rfl

theorem hexDigit_plain (d : Nat) (h : d < 16) :
    hexDigit d ≠ '&' ∧ hexDigit d ≠ '#' := by
  interval_cases d <;> decide

theorem utf8Octets_lt (n : Nat) (h : n < 0x110000) : ∀ b ∈ utf8Octets n, b < 256 := by
  intro b hb
  unfold utf8Octets at hb
  split at hb
  · simp at hb; omega
  · split at hb
    · simp at hb; omega
    · split at hb
      · simp at hb; omega
      · simp at hb; omega

theorem char_toNat_lt (c : Char) : c.toNat < 0x110000 := by
  rcases c.valid with h | h
  · exact Nat.lt_trans h (by decide)
  · exact h.2

theorem percentDecodeFrom_percentOctet (b : Nat) (hb : b < 256) (rest : List Char) :
    percentDecodeFrom .outside (percentOctet b ++ rest)
      = (percentDecodeFrom .outside rest).map (b :: ·) := by
  have h1 : b / 16 < 16 := by omega
  have h2 : b % 16 < 16 := by omega
  have h3 : 16 * (b / 16) + b % 16 = b := Nat.div_add_mod b 16
  simp [percentOctet, percentDecodeFrom, hexValue_hexDigit _ h1, hexValue_hexDigit _ h2, h3]

theorem percentDecodeFrom_escapes (bs : List Nat) (hbs : ∀ b ∈ bs, b < 256)
    (rest : List Char) :
    percentDecodeFrom .outside (bs.flatMap percentOctet ++ rest)
      = (percentDecodeFrom .outside rest).map (bs ++ ·) := by
  induction bs with
  | nil => simp
  | cons b bs ih =>
    have hb : b < 256 := hbs b (by simp)
    have hrest : ∀ x ∈ bs, x < 256 := fun x hx => hbs x (by simp [hx])
    rw [List.flatMap_cons, List.append_assoc, percentDecodeFrom_percentOctet b hb, ih hrest]
    cases percentDecodeFrom .outside rest <;> simp

theorem uriKept_ne_percent (c : Char) (h : uriKept c = true) : c ≠ '%' := by
  intro hc
  subst hc
  exact absurd h (by decide)

theorem percentDecodeFrom_encodeURIChar (c : Char) (rest : List Char) :
    percentDecodeFrom .outside (encodeURIChar c ++ rest)
      = (percentDecodeFrom .outside rest).map (utf8Octets c.toNat ++ ·) := by
  unfold encodeURIChar
  split
  · next h =>
    simp [percentDecodeFrom, uriKept_ne_percent c h]
  · exact percentDecodeFrom_escapes _ (utf8Octets_lt _ (char_toNat_lt c)) rest

theorem percentDecode_encodeURIChars (cs : List Char) :
    percentDecode (cs.flatMap encodeURIChar) = some (utf8 cs) := by
  unfold percentDecode utf8
  induction cs with
  | nil => rfl
  | cons c cs ih =>
    rw [List.flatMap_cons, percentDecodeFrom_encodeURIChar, ih]
    simp

theorem encodeURIChar_plain (c : Char) (hc : c ≠ '&' ∧ c ≠ '#') :
    ∀ x ∈ encodeURIChar c, x ≠ '&' ∧ x ≠ '#' := by
  intro x hx
  unfold encodeURIChar at hx
  split at hx
  · simp at hx; subst hx; exact hc
  · simp only [List.mem_flatMap] at hx
    obtain ⟨b, hb, hxb⟩ := hx
    have hlt : b < 256 := utf8Octets_lt _ (char_toNat_lt c) b hb
    simp only [percentOctet, List.mem_cons, List.mem_singleton, List.not_mem_nil, or_false] at hxb
    rcases hxb with h | h | h
    · subst h; decide
    · subst h; exact hexDigit_plain _ (by omega)
    · subst h; exact hexDigit_plain _ (by omega)

theorem splitOnChar_of_not_mem (sep : Char) (cs : List Char) (h : ∀ x ∈ cs, x ≠ sep) :
    splitOnChar sep cs = [cs] := by
  induction cs with
  | nil => rfl
  | cons c cs ih =>
    have hc : c ≠ sep := h c (by simp)
    have hcs : ∀ x ∈ cs, x ≠ sep := fun x hx => h x (by simp [hx])
    simp [splitOnChar, hc, ih hcs]

theorem endpoint_of_codePoints (query : JSString) (cs : List Char) (hq : query ≠ [])
    (hcs : codePoints query = some cs) :
    endpoint query
      = some (String.mk ("https://api.themoviedb.org/3/search/movie".data
          ++ '?' :: ("query=".data ++ cs.flatMap encodeURIChar))) := by
  simp only [endpoint, encodeURI, hcs, Option.map_some', API_BASE_URL]
  have hne : (!query.isEmpty) = true := by
    cases query with
    | nil => exact absurd rfl hq
    | cons _ _ => rfl
  rw [if_pos hne]
  congr 1

theorem queryComponent_search (cs : List Char)
    (hplain : ∀ c ∈ cs, c ≠ '&' ∧ c ≠ '#') :
    queryComponent ("https://api.themoviedb.org/3/search/movie".data
        ++ '?' :: ("query=".data ++ cs.flatMap encodeURIChar))
      = "query=".data ++ cs.flatMap encodeURIChar := by
  have henc : ∀ x ∈ cs.flatMap encodeURIChar, x ≠ '&' ∧ x ≠ '#' := by
    intro x hx
    obtain ⟨c, hc, hxc⟩ := List.mem_flatMap.1 hx
    exact encodeURIChar_plain c (hplain c hc) x hxc
  have hall : ∀ x ∈ "https://api.themoviedb.org/3/search/movie".data
      ++ '?' :: ("query=".data ++ cs.flatMap encodeURIChar), (x != '#') = true := by
    intro x hx
    have h1 : ∀ y ∈ "https://api.themoviedb.org/3/search/movie".data, (y != '#') = true := by
      decide
    have h2 : ∀ y ∈ "query=".data, (y != '#') = true := by decide
    rcases List.mem_append.1 hx with h | h
    · exact h1 x h
    · rcases List.mem_cons.1 h with h | h
      · subst h; decide
      · rcases List.mem_append.1 h with h | h
        · exact h2 x h
        · simpa using (henc x h).2
  rw [queryComponent, List.takeWhile_eq_self_iff.2 hall]
  simp [List.dropWhile]

/-- A non-empty, well-formed query text without `&` and `#` survives the search
address built for it: the address has the single parameter `query`, and its
value percent-decodes to the UTF-8 octets of the text. -/
theorem queryRoundTrips_of_plain (query : JSString) (cs : List Char) (hq : query ≠ [])
    (hcs : codePoints query = some cs)
    (hplain : ∀ c ∈ cs, c ≠ '&' ∧ c ≠ '#') :
    queryRoundTrips query = true := by
  have henc : ∀ x ∈ cs.flatMap encodeURIChar, x ≠ '&' := by
    intro x hx
    obtain ⟨c, hc, hxc⟩ := List.mem_flatMap.1 hx
    exact (encodeURIChar_plain c (hplain c hc) x hxc).1
  have hsplit : splitOnChar '&' ("query=".data ++ cs.flatMap encodeURIChar)
      = ["query=".data ++ cs.flatMap encodeURIChar] := by
    apply splitOnChar_of_not_mem
    intro x hx
    have h2 : ∀ y ∈ "query=".data, y ≠ '&' := by decide
    rcases List.mem_append.1 hx with h | h
    · exact h2 x h
    · exact henc x h
  have hname : ("query=".data ++ cs.flatMap encodeURIChar).takeWhile (· != '=')
      = "query".data := by
    simp [List.takeWhile]
  have hvalue : (("query=".data ++ cs.flatMap encodeURIChar).dropWhile
      (· != '=')).drop 1 = cs.flatMap encodeURIChar := by
    simp [List.dropWhile]
  simp only [queryRoundTrips, hcs, endpoint_of_codePoints query cs hq hcs, decide_eq_true_eq,
    queryParameters, queryComponent_search cs hplain, hsplit, List.map_cons, List.map_nil]
  rw [hname, hvalue, percentDecode_encodeURIChars]

/-- The round trip at a concrete input: a title with a blank, an accent and
a question mark. -/
theorem queryRoundTrips_of_plain_witness : queryRoundTrips (utf16 "où est amélie?") = true :=
  queryRoundTrips_of_plain (utf16 "où est amélie?") "où est amélie?".data (by decide)
    (by decide) (by decide)

end MovieApp
